import Mathlib

/-!
Shallow embedding of the Tauri application bootstrapper in
`apps/desktop/src-tauri/src/lib.rs` (the `run` function and the three
closures it registers: the single-instance callback, the setup callback
and the tray-icon event handler), together with theorems about the
registration order, the error paths and the event traces.

The host runtime (Tauri) is opaque: plugin initialisation, tray-icon
construction and window focus are external operations whose outcomes are
passed in as parameters (`Except String Unit` results), exactly at the
points where the Rust code receives a `Result` from the host.  The
bootstrapper's own behaviour — which integrations it registers, in which
order, under which platform flag, and how it reacts to each outcome — is
translated line by line from the source.
-/

deriving instance DecidableEq for Except

namespace Bootstrap

/-- The static build-time capability flag: `#[cfg(desktop)]` vs
`#[cfg(mobile)]` in the source. -/
inductive Platform
  | desktop
  | mobile
deriving DecidableEq, Repr

/-- A webview window as the single-instance callback sees it: an identity
and the outcome of a `set_focus()` call on it (the host decides whether
focusing succeeds). -/
structure Window where
  id : Nat
  setFocusResult : Except String Unit

/-- The application handle, restricted to the one capability the embedded
code uses on it at single-instance time: `get_webview_window`, a lookup
of a window by its string label. -/
structure AppHandle where
  getWebviewWindow : String → Option Window

/-- The observable effect of one invocation of the single-instance
callback: either the process dies with a panic message (Rust `expect`),
or a focus request was issued on the window with the given id. -/
inductive SingleInstanceEffect
  | panicked (msg : String)
  | focusRequested (windowId : Nat)
deriving DecidableEq, Repr

/-- The closure passed to `tauri_plugin_single_instance::init`:

    |app, _args, _cwd| {
        let _ = app.get_webview_window("main")
            .expect("no main window")
            .set_focus();
    }

`_args` and `_cwd` are received and discarded; `expect` panics with
"no main window" when the lookup returns `None`; the `Result` of
`set_focus()` is discarded by `let _ =`. -/
def singleInstanceCallback (app : AppHandle) (args : List String)
    (cwd : String) : SingleInstanceEffect :=
  match app.getWebviewWindow "main" with
  | none => .panicked "no main window"
  | some w =>
    let _ := args
    let _ := cwd
    let _ := w.setFocusResult
    .focusRequested w.id

/-- An opaque tray-icon event payload, forwarded untouched by the
handler. -/
structure TrayEvent where
  payload : Nat
deriving DecidableEq, Repr

/-- The tray handle passed to the tray-event closure; the embedded code
only calls `app_handle()` on it. -/
structure TrayHandle where
  appHandle : AppHandle

/-- The observable effect of the tray-event closure: a call into
`tauri_plugin_positioner::on_tray_event` with an application handle and
the event. -/
inductive TrayHandlerEffect
  | onTrayEvent (app : AppHandle) (event : TrayEvent)

/-- The closure passed to `on_tray_icon_event`:

    |tray_handle, event| {
        tauri_plugin_positioner::on_tray_event(tray_handle.app_handle(), &event);
    }
 -/
def onTrayIconEvent (trayHandle : TrayHandle) (event : TrayEvent) :
    TrayHandlerEffect :=
  .onTrayEvent trayHandle.appHandle event

/-- The activation policies of `tauri::ActivationPolicy` that matter
here. -/
inductive ActivationPolicy
  | regular
  | accessory
  | prohibited
deriving DecidableEq, Repr

/-- One observable action performed by the body of the setup closure. -/
inductive SetupEvent
  | positionerPluginAttempted (result : Except String Unit)
  | trayIconBuilt
  | activationPolicySet (policy : ActivationPolicy)
deriving DecidableEq, Repr

/-- The closure passed to `.setup(...)`:

    |app| {
        #[cfg(desktop)]
        {
            let _ = app.handle().plugin(tauri_plugin_positioner::init());
            tauri::tray::TrayIconBuilder::new()
                .on_tray_icon_event(...)
                .build(app)?;
            app.set_activation_policy(tauri::ActivationPolicy::Accessory);
        }
        Ok(())
    }

`positionerInitResult` is the host's outcome for the positioner plugin
registration (its `Result` is discarded by `let _ =`);
`trayBuildResult` is the host's outcome for `.build(app)`, whose error
the `?` operator returns from the closure.  The returned list is the
trace of actions the closure performed, in order, next to its
`Result`. -/
def setupCallback (platform : Platform)
    (positionerInitResult : Except String Unit)
    (trayBuildResult : Except String Unit) :
    List SetupEvent × Except String Unit :=
  match platform with
  | .mobile => ([], .ok ())
  | .desktop =>
    let attempted := [SetupEvent.positionerPluginAttempted positionerInitResult]
    match trayBuildResult with
    | .error e => (attempted, .error e)
    | .ok () =>
      (attempted ++ [SetupEvent.trayIconBuilt,
        SetupEvent.activationPolicySet .accessory], .ok ())

/-- One registration performed on the `tauri::Builder` chain, in source
order. -/
inductive Step
  | pluginHttp
  | pluginSingleInstance
  | setupRegistered
  | pluginDeepLink
  | pluginOpener
  | invokeHandlerRegistered (commands : List String)
deriving DecidableEq, Repr

/-- The builder chain of `run`, translated registration by
registration:

    tauri::Builder::default().plugin(tauri_plugin_http::init());
    #[cfg(desktop)] { builder = builder.plugin(tauri_plugin_single_instance::init(...)); }
    builder.setup(...)
        .plugin(tauri_plugin_deep_link::init())
        .plugin(tauri_plugin_opener::init())
        .invoke_handler(tauri::generate_handler![])

`tauri::generate_handler![]` with no arguments produces an empty command
table. -/
def builderSteps (platform : Platform) : List Step :=
  [Step.pluginHttp]
    ++ (match platform with
        | .desktop => [Step.pluginSingleInstance]
        | .mobile => [])
    ++ [Step.setupRegistered, Step.pluginDeepLink, Step.pluginOpener,
        Step.invokeHandlerRegistered []]

/-- One observable event of a whole startup: a builder registration, an
action of the executed setup closure, or the hand-off to the event
loop. -/
inductive Event
  | reg (step : Step)
  | setup (e : SetupEvent)
  | eventLoopStarted
deriving DecidableEq, Repr

/-- How the `run` function ends: blocked inside the event loop for the
rest of the process, or dead by panic (`expect` on the builder's
`run` result). -/
inductive RunOutcome
  | running
  | panicked (msg : String)
deriving DecidableEq, Repr

/-- The whole `run` function: the builder chain is assembled (in
`builderSteps` order), then `.run(tauri::generate_context!())` executes
the setup closure and, only if it returned `Ok`, enters the event loop;
an `Err` from `run` hits `.expect("error while running tauri
application")`, which panics.  The two host outcomes consumed inside
setup are passed through. -/
def run (platform : Platform) (positionerInitResult : Except String Unit)
    (trayBuildResult : Except String Unit) : List Event × RunOutcome :=
  let regs := (builderSteps platform).map Event.reg
  let (setupEvents, setupResult) :=
    setupCallback platform positionerInitResult trayBuildResult
  match setupResult with
  | .error _ =>
    (regs ++ setupEvents.map Event.setup,
      .panicked "error while running tauri application")
  | .ok () =>
    (regs ++ setupEvents.map Event.setup ++ [Event.eventLoopStarted],
      .running)

/-- Claim C1: when the platform flag is desktop, `run` registers the
outbound-network (HTTP) plugin, the single-instance plugin, the setup
callback (whose executed body attempts the positioner plugin, builds the
tray icon, then sets the accessory activation policy), the deep-link
plugin, the external-link opener plugin and an empty command table, in
exactly this order, before the event loop starts. -/
theorem desktop_registration_order (pr : Except String Unit) :
    Bootstrap.run .desktop pr (.ok ()) =
      ([.reg .pluginHttp, .reg .pluginSingleInstance, .reg .setupRegistered,
        .reg .pluginDeepLink, .reg .pluginOpener,
        .reg (.invokeHandlerRegistered []),
        .setup (.positionerPluginAttempted pr), .setup .trayIconBuilt,
        .setup (.activationPolicySet .accessory),
        Event.eventLoopStarted], .running) := rfl

/-- Claim C2: when the platform flag is mobile, `run` registers only the
HTTP plugin, the (trivial) setup callback, the deep-link plugin, the
opener plugin and the empty command table; the single-instance plugin is
never registered and no setup-body step (positioner, tray, activation
policy) is executed. -/
theorem mobile_registration_order (pr tr : Except String Unit) :
    Bootstrap.run .mobile pr tr =
      ([.reg .pluginHttp, .reg .setupRegistered, .reg .pluginDeepLink,
        .reg .pluginOpener, .reg (.invokeHandlerRegistered []),
        Event.eventLoopStarted], .running)
    ∧ Event.reg .pluginSingleInstance ∉ (Bootstrap.run .mobile pr tr).1
    ∧ ∀ e : SetupEvent, Event.setup e ∉ (Bootstrap.run .mobile pr tr).1 := by
  refine ⟨rfl, ?_, ?_⟩ <;>
    simp [Bootstrap.run, Bootstrap.builderSteps, Bootstrap.setupCallback]

/-- Claim C3: whenever the single-instance callback runs while no window
is registered under the label "main", it panics with the message
"no main window". -/
theorem single_instance_missing_main_window_panics (app : AppHandle)
    (args : List String) (cwd : String)
    (h : app.getWebviewWindow "main" = none) :
    singleInstanceCallback app args cwd = .panicked "no main window" := by
  unfold singleInstanceCallback
  rw [h]

/-- Witness for C3: a registry with no windows at all makes the callback
panic with "no main window". -/
theorem single_instance_missing_main_window_panics_witness :
    singleInstanceCallback ⟨fun _ => none⟩ ["--flag"] "/tmp" =
      SingleInstanceEffect.panicked "no main window" :=
  single_instance_missing_main_window_panics ⟨fun _ => none⟩ ["--flag"] "/tmp" rfl

/-- Claim C4: whenever the single-instance callback runs while a window
is registered under "main", it issues a focus request on exactly that
window and never panics; the statement holds for every value of the
window's focus result, so a failed focus attempt produces no error. -/
theorem single_instance_focuses_main_window (app : AppHandle)
    (args : List String) (cwd : String) (w : Window)
    (h : app.getWebviewWindow "main" = some w) :
    singleInstanceCallback app args cwd = .focusRequested w.id ∧
    ∀ msg, singleInstanceCallback app args cwd ≠ .panicked msg := by
  unfold singleInstanceCallback
  rw [h]
  exact ⟨rfl, fun msg hc => by cases hc⟩

/-- Witness for C4: a "main" window whose focus call fails still gets the
focus request, and the callback does not panic. -/
theorem single_instance_focuses_main_window_witness :
    singleInstanceCallback ⟨fun _ => some ⟨7, Except.error "focus refused"⟩⟩ [] "" =
        SingleInstanceEffect.focusRequested 7 ∧
      singleInstanceCallback ⟨fun _ => some ⟨7, Except.error "focus refused"⟩⟩ [] "" ≠
        SingleInstanceEffect.panicked "no main window" :=
  ⟨(single_instance_focuses_main_window ⟨fun _ => some ⟨7, Except.error "focus refused"⟩⟩
      [] "" ⟨7, Except.error "focus refused"⟩ rfl).1,
   (single_instance_focuses_main_window ⟨fun _ => some ⟨7, Except.error "focus refused"⟩⟩
      [] "" ⟨7, Except.error "focus refused"⟩ rfl).2 "no main window"⟩

/-- Claim C5: if tray-icon construction fails during desktop setup, the
setup callback returns that error without setting the activation policy,
the error propagates to the top-level `run`, and the process panics
without the event loop ever starting. -/
theorem tray_failure_aborts_startup (pr : Except String Unit) (e : String) :
    (setupCallback .desktop pr (.error e)).2 = .error e ∧
    Event.setup (.activationPolicySet .accessory) ∉
      (Bootstrap.run .desktop pr (.error e)).1 ∧
    (Bootstrap.run .desktop pr (.error e)).2 =
      .panicked "error while running tauri application" ∧
    Event.eventLoopStarted ∉ (Bootstrap.run .desktop pr (.error e)).1 := by
  refine ⟨rfl, ?_, rfl, ?_⟩ <;>
    simp [Bootstrap.run, Bootstrap.builderSteps, Bootstrap.setupCallback]

/-- Claim C6: on every successful desktop startup the accessory
activation policy is set exactly once, after the tray icon is built and
before the event loop starts; on mobile no activation policy is ever
set. -/
theorem activation_policy_accessory_once (pr : Except String Unit) :
    (∃ l₁ l₂,
      (Bootstrap.run .desktop pr (.ok ())).1 =
        l₁ ++ Event.setup (.activationPolicySet .accessory) :: l₂ ∧
      Event.setup (.activationPolicySet .accessory) ∉ l₁ ∧
      Event.setup (.activationPolicySet .accessory) ∉ l₂ ∧
      Event.setup .trayIconBuilt ∈ l₁ ∧
      l₂ = [Event.eventLoopStarted]) ∧
    ∀ tr pol, Event.setup (.activationPolicySet pol) ∉
      (Bootstrap.run .mobile pr tr).1 := by
  constructor
  · refine ⟨[.reg .pluginHttp, .reg .pluginSingleInstance, .reg .setupRegistered,
      .reg .pluginDeepLink, .reg .pluginOpener, .reg (.invokeHandlerRegistered []),
      .setup (.positionerPluginAttempted pr), .setup .trayIconBuilt],
      [Event.eventLoopStarted], rfl, ?_, ?_, ?_, rfl⟩ <;> simp
  · intro tr pol
    simp [Bootstrap.run, Bootstrap.builderSteps, Bootstrap.setupCallback]

/-- Counterexample to C7 as stated: the positioner plugin registration
failure during desktop setup is silently swallowed — setup still returns
success, the run keeps going into the event loop and no panic occurs. -/
theorem positioner_failure_silently_swallowed :
    (setupCallback .desktop (Except.error "positioner init failed") (.ok ())).2 =
      .ok () ∧
    (Bootstrap.run .desktop (Except.error "positioner init failed") (.ok ())).2 =
      .running ∧
    (Bootstrap.run .desktop (Except.error "positioner init failed") (.ok ())).2 ≠
      RunOutcome.panicked "error while running tauri application" := by
  exact ⟨rfl, rfl, fun hc => by cases hc⟩

/-- Claim C7 (amended): apart from the positioner plugin registration
result and the window focus result, both deliberately discarded, every
failure either aborts setup with a propagated error that panics the
top-level run, or crashes the process with a diagnostic: a tray-build
error propagates and panics the run, and a missing main window panics
the single-instance callback. -/
theorem nondiscarded_failures_abort_or_crash (pr : Except String Unit)
    (e : String) (app : AppHandle) (args : List String) (cwd : String) :
    ((setupCallback .desktop pr (.error e)).2 = .error e ∧
      (Bootstrap.run .desktop pr (.error e)).2 =
        .panicked "error while running tauri application") ∧
    (app.getWebviewWindow "main" = none →
      singleInstanceCallback app args cwd = .panicked "no main window") := by
  refine ⟨⟨rfl, rfl⟩, fun h => ?_⟩
  unfold singleInstanceCallback
  rw [h]

/-- Witness for the amended C7: a concrete tray failure panics the run,
and a concrete empty window registry panics the callback. -/
theorem nondiscarded_failures_abort_or_crash_witness :
    ((setupCallback .desktop (.ok ()) (Except.error "tray unsupported")).2 =
        Except.error "tray unsupported" ∧
      (Bootstrap.run .desktop (.ok ()) (Except.error "tray unsupported")).2 =
        RunOutcome.panicked "error while running tauri application") ∧
    singleInstanceCallback ⟨fun _ => none⟩ [] "." =
      SingleInstanceEffect.panicked "no main window" :=
  ⟨(nondiscarded_failures_abort_or_crash (.ok ()) "tray unsupported"
      ⟨fun _ => none⟩ [] ".").1,
   (nondiscarded_failures_abort_or_crash (.ok ()) "tray unsupported"
      ⟨fun _ => none⟩ [] ".").2 rfl⟩

/-- Claim C8: the tray-event handler forwards every tray event,
unchanged, to the positioner integration's event hook, with the
application handle obtained from the tray handle. -/
theorem tray_event_forwarded_unchanged (trayHandle : TrayHandle)
    (event : TrayEvent) :
    onTrayIconEvent trayHandle event =
      .onTrayEvent trayHandle.appHandle event := rfl

/-- Claim C9: the single-instance callback's effect does not depend on
the launch-argument list or the working-directory string it receives. -/
theorem single_instance_ignores_args_and_cwd (app : AppHandle)
    (args args' : List String) (cwd cwd' : String) :
    singleInstanceCallback app args cwd =
      singleInstanceCallback app args' cwd' := rfl

/-- Claim C10: a failed positioner plugin registration during desktop
setup is discarded: the tray icon is still built, the activation policy
is still set, and setup returns success when tray construction
succeeds. -/
theorem positioner_failure_discarded (e : String) :
    setupCallback .desktop (Except.error e) (.ok ()) =
      ([SetupEvent.positionerPluginAttempted (Except.error e),
        SetupEvent.trayIconBuilt,
        SetupEvent.activationPolicySet .accessory], Except.ok ()) := rfl

end Bootstrap
